import Mathlib

/-
  Verification of the HD44780 I2C LCD driver (HD44780.c / HD44780.h).

  The driver talks to an HD44780 LCD controller through a PCF8574 I/O
  expander: every bus transaction is a single-byte I2C write (or read, for
  status polls).  We embed the driver shallowly:

  - machine integers (uint8_t) are Nat with explicit masking (and 0xFF,
    mod 256) exactly where the C code truncates;
  - the byte stream written on the I2C bus is accumulated in a trace
    (field bus of DriverState), one Nat per HAL_I2C_Master_Transmit call;
  - the two bytes received during a status read are either supplied
    explicitly (raw layer, functions over DriverState) or produced by a
    small model of the controller (LCDDevice, which is external hardware
    and therefore modelled from the spec);
  - the module-static variable AddressCounter is a field of DriverState.
-/

set_option maxHeartbeats 1000000
set_option maxRecDepth 10000

/- ################ Constants from HD44780.h ################ -/

def HD44780_NUM_ROWS : Nat := 2

def HD44780_NUM_COLS : Nat := 16

def HD44780_NUM_ELEMENTS : Nat := HD44780_NUM_ROWS * HD44780_NUM_COLS

/-- I2C control bit: register select (1 << 0). -/
def HD44780_RS : Nat := 1

/-- I2C control bit: read/write (1 << 1). -/
def HD44780_RW : Nat := 2

/-- I2C control bit: enable strobe (1 << 2). -/
def HD44780_EN : Nat := 4

/-- I2C control bit: backlight (1 << 3). -/
def HD44780_BACKLIGHT : Nat := 8

/- ################ Enums from HD44780.h ################ -/

/-- enum HD44780_State (constructors drop the HD44780_ prefix of the source). -/
inductive HD44780_State where
  | READY
  | BUSY
  | TIMEOUT
deriving DecidableEq

/-- enum LCD1602_State (constructors drop the LCD1602_ prefix of the source). -/
inductive LCD1602_State where
  | ON
  | OFF
deriving DecidableEq

/-- enum HD44780_User_Command_List. -/
inductive HD44780_User_Command_List where
  | CLEAR_DISPLAY
  | RETURN_HOME
  | DISPLAY_ON
  | DISPLAY_OFF
  | CURSOR_ON
  | CURSOR_OFF
  | CURSOR_BLINK
  | CURSOR_UNBLINK
deriving DecidableEq

/- ################ Data model ################ -/

/-- struct HD44780_HandleTypeDef.  The two-element array Cursor_Position is
split into cursorRow (Cursor_Position at index 0) and cursorCol
(Cursor_Position at index 1); Text holds the character bytes. -/
structure HD44780_HandleTypeDef where
  cursorRow : Nat
  cursorCol : Nat
  Text : List Nat
  State : HD44780_State
  PowerState : LCD1602_State
deriving DecidableEq

/-- Driver-side state: the handle, the module-static AddressCounter, and the
trace of bytes transmitted on the I2C bus so far (one entry per
HAL_I2C_Master_Transmit call). -/
structure DriverState where
  handle : HD44780_HandleTypeDef
  AddressCounter : Nat
  bus : List Nat
deriving DecidableEq

/- ################ HD44780_Check_Status (raw layer) ################ -/

/-- The status byte HD44780_Check_Status reconstructs from the two received
bytes r.1 and r.2: Data equals (ReadBuffer1 and 0xF0) bitor
((ReadBuffer2 shifted right by 4) and 0x0F). -/
def Check_Status_Data (r : Nat × Nat) : Nat :=
  (r.1 &&& 0xF0) ||| ((r.2 >>> 4) &&& 0x0F)

/-- The five bytes HD44780_Check_Status transmits on the bus (the EN clear
steps compute ReadCommand and the uint8 complement of HD44780_EN, 0xFB). -/
def Status_Read_writes : List Nat :=
  let c1 := 0xF0 ||| HD44780_BACKLIGHT ||| HD44780_RW
  let c2 := c1 ||| HD44780_EN
  let c3 := c2 &&& 0xFB
  let c4 := c3 ||| HD44780_EN
  let c5 := c4 &&& 0xFB
  [c1, c2, c3, c4, c5]

/-- HD44780_Check_Status given the two received bytes r: reconstruct Data;
if bit 7 (busy flag) is set, mark the handle BUSY; otherwise store
Data and (bitwise) 0x7F into AddressCounter and mark READY. -/
def HD44780_Check_Status (r : Nat × Nat) (w : DriverState) : DriverState :=
  if Check_Status_Data r &&& (1 <<< 7) ≠ 0 then
    { w with handle.State := HD44780_State.BUSY,
             bus := w.bus ++ Status_Read_writes }
  else
    { w with handle.State := HD44780_State.READY,
             AddressCounter := Check_Status_Data r &&& 0x7F,
             bus := w.bus ++ Status_Read_writes }

/- ################ Framing (HD44780_Send_Command / HD44780_Send_Data) ##### -/

/-- The four bytes HD44780_Send_Command transmits for payload Command,
computed exactly as in the source (0xFB is the uint8 complement of
HD44780_EN). -/
def Send_Command_writes (Command : Nat) : List Nat :=
  let Command_7_4 := 0xF0 &&& Command
  let Command_3_0 := 0xF0 &&& (Command <<< 4)
  let w1 := 0 ||| (Command_7_4 ||| HD44780_BACKLIGHT ||| HD44780_EN)
  let w2 := w1 &&& 0xFB
  let w3 := (w2 &&& 0x0F) ||| (Command_3_0 ||| HD44780_BACKLIGHT ||| HD44780_EN)
  let w4 := w3 &&& 0xFB
  [w1, w2, w3, w4]

/-- The five bytes HD44780_Send_Data transmits for payload Command: the
register-select settling write first (RS and backlight only, EN low),
then the two nibble pairs. -/
def Send_Data_writes (Command : Nat) : List Nat :=
  let Command_7_4 := 0xF0 &&& Command
  let Command_3_0 := 0xF0 &&& (Command <<< 4)
  let w1 := 0 ||| (HD44780_BACKLIGHT ||| HD44780_RS)
  let w2 := w1 ||| (Command_7_4 ||| HD44780_BACKLIGHT ||| HD44780_EN ||| HD44780_RS)
  let w3 := w2 &&& 0xFB
  let w4 := (w3 &&& 0x0F) ||| (Command_3_0 ||| HD44780_BACKLIGHT ||| HD44780_EN ||| HD44780_RS)
  let w5 := w4 &&& 0xFB
  [w1, w2, w3, w4, w5]

/- ################ Busy-confirmation loop and timeout path ################ -/

/-- The for loop of HD44780_Send_Command / HD44780_Send_Data with
CheckBusyFlag set: up to n further HD44780_Check_Status attempts, the
attempt counter being the first argument of readings; returns the state
after the loop together with true when some attempt observed READY. -/
def Check_Busy_Loop (readings : Nat → Nat × Nat) :
    Nat → Nat → DriverState → DriverState × Bool
  | _, 0, w => (w, false)
  | i, n + 1, w =>
    let w2 := HD44780_Check_Status (readings i) w
    if w2.handle.State = HD44780_State.READY then (w2, true)
    else Check_Busy_Loop readings (i + 1) n w2

/-- HD44780_Send_Command over the raw bus: readings supplies the bytes each
status-read attempt receives.  Result: the driver state at normal return,
or at entry to HD44780_Error_Handler on timeout, paired with the number of
times the error handler is invoked (the reference handler never returns, so
the timeout component records the state passed to it). -/
def HD44780_Send_Command (readings : Nat → Nat × Nat) (Command : Nat)
    (CheckBusyFlag : Bool) (w : DriverState) : DriverState × Nat :=
  let w1 : DriverState :=
    { w with handle.State := HD44780_State.BUSY,
             bus := w.bus ++ Send_Command_writes Command }
  if CheckBusyFlag then
    let r := Check_Busy_Loop readings 0 20 w1
    if r.2 then (r.1, 0)
    else ({ r.1 with handle.State := HD44780_State.TIMEOUT }, 1)
  else
    ({ w1 with handle.State := HD44780_State.READY }, 0)

/-- HD44780_Send_Data over the raw bus; identical control flow to
HD44780_Send_Command, with data framing. -/
def HD44780_Send_Data (readings : Nat → Nat × Nat) (Command : Nat)
    (CheckBusyFlag : Bool) (w : DriverState) : DriverState × Nat :=
  let w1 : DriverState :=
    { w with handle.State := HD44780_State.BUSY,
             bus := w.bus ++ Send_Data_writes Command }
  if CheckBusyFlag then
    let r := Check_Busy_Loop readings 0 20 w1
    if r.2 then (r.1, 0)
    else ({ r.1 with handle.State := HD44780_State.TIMEOUT }, 1)
  else
    ({ w1 with handle.State := HD44780_State.READY }, 0)

/-- HD44780_Error_Handler: while (State != READY) run the user-supplied body
(the reference body is empty, i.e. fun h => h, with the recovery assignment
commented out).  Fuel-indexed: some h when the loop exits within the given
number of iterations, none when it is still spinning. -/
def HD44780_Error_Handler (body : HD44780_HandleTypeDef → HD44780_HandleTypeDef) :
    Nat → HD44780_HandleTypeDef → Option HD44780_HandleTypeDef
  | 0, _ => none
  | fuel + 1, h =>
    if h.State = HD44780_State.READY then some h
    else HD44780_Error_Handler body fuel (body h)

/- ################ Cursor translation (HD44780_Get_Cursor_Position) ######## -/

/-- The if/else of HD44780_Get_Cursor_Position translating the copied
AddressCounter into Cursor_Position.  The source computes the second-row
column as the uint8 cast of (AddressCopy - 64), i.e. (AddressCopy + 192)
mod 256. -/
def Cursor_Translate (AddressCopy : Nat) (h : HD44780_HandleTypeDef) :
    HD44780_HandleTypeDef :=
  if AddressCopy < 40 then
    { h with cursorRow := 0, cursorCol := AddressCopy }
  else
    { h with cursorRow := 1, cursorCol := (AddressCopy + 192) % 256 }

/-- HD44780_Get_Cursor_Position given the two bytes the embedded status read
receives: run HD44780_Check_Status, then translate the (possibly stale)
AddressCounter into the cached cursor position. -/
def HD44780_Get_Cursor_Position (r : Nat × Nat) (w : DriverState) : DriverState :=
  let w1 := HD44780_Check_Status r w
  { w1 with handle := Cursor_Translate w1.AddressCounter w1.handle }

/- ################ Clear_Text_Buffer and the pure read functions ########### -/

/-- Clear_Text_Buffer: set every one of the HD44780_NUM_ELEMENTS slots to the
null character. -/
def Clear_Text_Buffer (Text : List Nat) : List Nat :=
  (List.range HD44780_NUM_ELEMENTS).foldl (fun t i => t.set i 0) Text

/-- HD44780_Read_Character: null for out-of-range coordinates, otherwise the
mirror slot at row * HD44780_NUM_COLS + column. -/
def HD44780_Read_Character (h : HD44780_HandleTypeDef) (row column : Nat) : Nat :=
  if HD44780_NUM_ROWS ≤ row ∨ HD44780_NUM_COLS ≤ column then 0
  else h.Text.getD (row * HD44780_NUM_COLS + column) 0

/-- HD44780_Get_Row_Index. -/
def HD44780_Get_Row_Index (h : HD44780_HandleTypeDef) : Nat :=
  h.cursorRow

/-- HD44780_Get_Column_Index. -/
def HD44780_Get_Column_Index (h : HD44780_HandleTypeDef) : Nat :=
  h.cursorCol

/- ################ The controller model (external hardware) ################ -/

/-- Modelled from the spec: the HD44780 controller itself is external
hardware, not part of src/.  Its 7-bit DDRAM address counter is the value a
status read reports (spec section 3, AddressCounter; section 4.2); a Set
DDRAM Address instruction (bit 7 set) loads it from the low 7 bits
(spec section 4.5, set_cursor_position); Clear Display (0x01) and Return
Home (0x02) reset it to 0; each data byte written auto-increments it, the
entry mode fixed by HD44780_Init (spec section 4.5, init).  writes counts
the data bytes latched into DDRAM. -/
structure LCDDevice where
  ac : Nat
  writes : Nat
deriving DecidableEq

/-- Modelled from the spec: the effect of one framed instruction byte on the
controller address counter. -/
def LCDDevice.exec (Command : Nat) (d : LCDDevice) : LCDDevice :=
  if Command &&& (1 <<< 7) ≠ 0 then { d with ac := Command &&& 0x7F }
  else if Command = 0x01 ∨ Command = 0x02 then { d with ac := 0 }
  else d

/-- Modelled from the spec: the effect of one framed data byte on the
controller (auto-increment entry mode). -/
def LCDDevice.write (d : LCDDevice) : LCDDevice :=
  { ac := (d.ac + 1) % 128, writes := d.writes + 1 }

/-- Modelled from the spec: the two bytes a status read receives from an idle
controller — busy flag clear, the address counter in the data bits, high
nibble first (each received byte carries its nibble in bits 7..4). -/
def idealReads (d : LCDDevice) : Nat × Nat :=
  (d.ac, (d.ac <<< 4) % 256)

/- ################ Driver composed with the controller model ############## -/

/-- The driver together with the controller it is wired to. -/
structure LCDSystem where
  w : DriverState
  dev : LCDDevice
deriving DecidableEq

/-- HD44780_Check_Status against the controller model. -/
def Check_StatusS (s : LCDSystem) : LCDSystem :=
  { s with w := HD44780_Check_Status (idealReads s.dev) s.w }

/-- HD44780_Get_Cursor_Position against the controller model. -/
def Get_Cursor_PositionS (s : LCDSystem) : LCDSystem :=
  { s with w := HD44780_Get_Cursor_Position (idealReads s.dev) s.w }

/-- HD44780_Send_Command against the controller model: the controller latches
the instruction while the nibbles are strobed, then the busy loop polls it
(an idle controller answers every poll with busy clear, so the error count
is 0 and is dropped). -/
def Send_CommandS (Command : Nat) (CheckBusyFlag : Bool) (s : LCDSystem) :
    LCDSystem :=
  let d2 := LCDDevice.exec Command s.dev
  { w := (HD44780_Send_Command (fun _ => idealReads d2) Command CheckBusyFlag s.w).1,
    dev := d2 }

/-- HD44780_Send_Data against the controller model. -/
def Send_DataS (Data : Nat) (CheckBusyFlag : Bool) (s : LCDSystem) : LCDSystem :=
  let d2 := LCDDevice.write s.dev
  { w := (HD44780_Send_Data (fun _ => idealReads d2) Data CheckBusyFlag s.w).1,
    dev := d2 }

/-- HD44780_Set_Cursor_Position: silent no-op out of range, otherwise frame
0x80 bitor column (row 0) or 0x80 bitor 0x40 bitor column (row 1) with busy
confirmation. -/
def Set_Cursor_PositionS (row column : Nat) (s : LCDSystem) : LCDSystem :=
  if HD44780_NUM_ROWS ≤ row ∨ HD44780_NUM_COLS ≤ column then s
  else if row = 0 then Send_CommandS (0x80 ||| column) true s
  else Send_CommandS (0x80 ||| 0x40 ||| column) true s

/-- HD44780_Transmit_Command: power-state-keyed dispatch.  DISPLAY_OFF (when
on) and DISPLAY_ON (when off) are raw single-byte transmits that flip
PowerState; unrecognized commands for the current power state fall through
the default case. -/
def HD44780_Transmit_Command (UserCommand : HD44780_User_Command_List)
    (s : LCDSystem) : LCDSystem :=
  if s.w.handle.PowerState = LCD1602_State.ON then
    match UserCommand with
    | HD44780_User_Command_List.CLEAR_DISPLAY =>
      let s1 := Send_CommandS 0x01 true s
      let s2 : LCDSystem := { s1 with w.handle.Text := Clear_Text_Buffer s1.w.handle.Text }
      { s2 with w.handle.cursorRow := 0, w.handle.cursorCol := 0 }
    | HD44780_User_Command_List.RETURN_HOME =>
      let s1 := Send_CommandS 0x02 true s
      { s1 with w.handle.cursorRow := 0, w.handle.cursorCol := 0 }
    | HD44780_User_Command_List.DISPLAY_OFF =>
      { s with w.bus := s.w.bus ++ [0],
               w.handle.PowerState := LCD1602_State.OFF }
    | HD44780_User_Command_List.CURSOR_ON => Send_CommandS 0x0E true s
    | HD44780_User_Command_List.CURSOR_OFF => Send_CommandS 0x0C true s
    | HD44780_User_Command_List.CURSOR_BLINK => Send_CommandS 0x0D true s
    | HD44780_User_Command_List.CURSOR_UNBLINK => Send_CommandS 0x0C true s
    | HD44780_User_Command_List.DISPLAY_ON => s
  else
    match UserCommand with
    | HD44780_User_Command_List.DISPLAY_ON =>
      { s with w.bus := s.w.bus ++ [HD44780_BACKLIGHT],
               w.handle.PowerState := LCD1602_State.ON }
    | _ => s

/-- The for loop of HD44780_Print: i is the loop index, startindex the linear
index where the text begins.  On overflow of the mirror, reset the cursor to
(0,0) and return; otherwise send the character, mirror it, hop to row 1 when
the address counter just reached HD44780_NUM_COLS, and refresh the cached
cursor once the string is exhausted. -/
def HD44780_Print_go (str : List Nat) (startindex i : Nat) (s : LCDSystem) :
    LCDSystem :=
  match str with
  | [] => Get_Cursor_PositionS s
  | c :: rest =>
    if startindex + i > HD44780_NUM_ELEMENTS - 1 then
      Set_Cursor_PositionS 0 0 s
    else
      let s1 := Send_DataS c true s
      let s2 : LCDSystem := { s1 with w.handle.Text := s1.w.handle.Text.set (startindex + i) c }
      let s3 := if s2.w.AddressCounter = HD44780_NUM_COLS
                then Set_Cursor_PositionS 1 0 s2 else s2
      HD44780_Print_go rest startindex (i + 1) s3

/-- HD44780_Print: refresh the cursor from the controller, compute the uint8
startindex, then run the loop over the characters of the string. -/
def HD44780_Print (str : List Nat) (s : LCDSystem) : LCDSystem :=
  let s0 := Get_Cursor_PositionS s
  let startindex :=
    (s0.w.handle.cursorRow * HD44780_NUM_COLS + s0.w.handle.cursorCol) % 256
  HD44780_Print_go str startindex 0 s0

/- ################ Concrete states for witnesses ################ -/

/-- A concrete handle: cursor at (0,0), empty mirror, READY, powered on. -/
def handle0 : HD44780_HandleTypeDef :=
  { cursorRow := 0, cursorCol := 0, Text := List.replicate 32 0,
    State := HD44780_State.READY, PowerState := LCD1602_State.ON }

/-- A concrete driver state over handle0 with an empty bus trace. -/
def world0 : DriverState :=
  { handle := handle0, AddressCounter := 0, bus := [] }

/-- A concrete composed system: driver over handle0, controller at address 0. -/
def sys0 : LCDSystem :=
  { w := world0, dev := { ac := 0, writes := 0 } }

/- ################ List helpers ################ -/

theorem getD_set_self (l : List Nat) (i a : Nat) (h : i < l.length) :
    (l.set i a).getD i 0 = a := by
  induction l generalizing i with
  | nil => simp at h
  | cons x xs ih =>
    cases i with
    | zero => rfl
    | succ n =>
      have hn : n < xs.length := by simpa using h
      simpa [List.set, List.getD] using ih n hn

theorem getD_set_ne (l : List Nat) (i j a : Nat) (h : i ≠ j) :
    (l.set i a).getD j 0 = l.getD j 0 := by
  induction l generalizing i j with
  | nil => rfl
  | cons x xs ih =>
    cases i with
    | zero =>
      cases j with
      | zero => exact absurd rfl h
      | succ m => rfl
    | succ n =>
      cases j with
      | zero => rfl
      | succ m => simpa [List.set, List.getD] using ih n m (by omega)

/- ################ Framing normal forms ################ -/

/-- Closed form of both framing traces for every byte payload, bitwise facts
checked for all 256 byte values. -/
theorem Send_writes_norm : ∀ c, c < 256 →
    Send_Command_writes c =
      [(c &&& 0xF0) ||| HD44780_BACKLIGHT ||| HD44780_EN,
       (c &&& 0xF0) ||| HD44780_BACKLIGHT,
       ((c <<< 4) &&& 0xF0) ||| HD44780_BACKLIGHT ||| HD44780_EN,
       ((c <<< 4) &&& 0xF0) ||| HD44780_BACKLIGHT] ∧
    Send_Data_writes c =
      (HD44780_BACKLIGHT ||| HD44780_RS) ::
        [(c &&& 0xF0) ||| HD44780_BACKLIGHT ||| HD44780_EN ||| HD44780_RS,
         (c &&& 0xF0) ||| HD44780_BACKLIGHT ||| HD44780_RS,
         ((c <<< 4) &&& 0xF0) ||| HD44780_BACKLIGHT ||| HD44780_EN ||| HD44780_RS,
         ((c <<< 4) &&& 0xF0) ||| HD44780_BACKLIGHT ||| HD44780_RS] ∧
    (∀ b ∈ Send_Command_writes c, b &&& HD44780_BACKLIGHT = HD44780_BACKLIGHT) ∧
    (∀ b ∈ Send_Data_writes c, b &&& HD44780_BACKLIGHT = HD44780_BACKLIGHT) := by
  decide

/-- C3 counterexample: HD44780_Send_Data frames the byte 0x41 with five bus
write transactions, not four — the claimed "exactly four" is false for
HD44780_Send_Data. -/
theorem C3_counterexample : ¬ (Send_Data_writes 0x41).length = 4 := by
  decide

/-- C3 (amended): HD44780_Send_Command frames one byte payload with exactly
four bus writes in the order high nibble with enable asserted, high nibble
with enable released, low nibble with enable asserted, low nibble with enable
released; HD44780_Send_Data issues those same four (with the register-select
bit set) preceded by one register-select settling write, five writes in all;
and every write of both sequences carries the backlight bit (bit 3). -/
theorem C3_framing (Command : Nat) (h : Command < 256) :
    Send_Command_writes Command =
      [(Command &&& 0xF0) ||| HD44780_BACKLIGHT ||| HD44780_EN,
       (Command &&& 0xF0) ||| HD44780_BACKLIGHT,
       ((Command <<< 4) &&& 0xF0) ||| HD44780_BACKLIGHT ||| HD44780_EN,
       ((Command <<< 4) &&& 0xF0) ||| HD44780_BACKLIGHT] ∧
    Send_Data_writes Command =
      (HD44780_BACKLIGHT ||| HD44780_RS) ::
        [(Command &&& 0xF0) ||| HD44780_BACKLIGHT ||| HD44780_EN ||| HD44780_RS,
         (Command &&& 0xF0) ||| HD44780_BACKLIGHT ||| HD44780_RS,
         ((Command <<< 4) &&& 0xF0) ||| HD44780_BACKLIGHT ||| HD44780_EN ||| HD44780_RS,
         ((Command <<< 4) &&& 0xF0) ||| HD44780_BACKLIGHT ||| HD44780_RS] ∧
    (Send_Command_writes Command).length = 4 ∧
    (Send_Data_writes Command).length = 5 ∧
    (∀ b ∈ Send_Command_writes Command, b &&& HD44780_BACKLIGHT = HD44780_BACKLIGHT) ∧
    (∀ b ∈ Send_Data_writes Command, b &&& HD44780_BACKLIGHT = HD44780_BACKLIGHT) := by
  obtain ⟨h1, h2, h3, h4⟩ := Send_writes_norm Command h
  exact ⟨h1, h2, rfl, rfl, h3, h4⟩

/-- Witness for C3_framing at Command = 0x37. -/
theorem C3_framing_witness :
    (0x37 : Nat) < 256 ∧ (Send_Command_writes 0x37).length = 4 := by
  exact ⟨by decide, (C3_framing 0x37 (by decide)).2.2.1⟩

/- ################ C9: out-of-range inputs ################ -/

/-- C9: for out-of-range coordinates HD44780_Set_Cursor_Position returns with
the whole system (driver state, bus trace, controller) unchanged, and
HD44780_Read_Character returns the null character; HD44780_Read_Character is
a pure function of the cached handle, so it issues no bus transaction on any
input. -/
theorem C9_out_of_range (s : LCDSystem) (h : HD44780_HandleTypeDef)
    (row column : Nat) (hoor : 2 ≤ row ∨ 16 ≤ column) :
    Set_Cursor_PositionS row column s = s ∧
    HD44780_Read_Character h row column = 0 := by
  constructor
  · unfold Set_Cursor_PositionS
    rw [if_pos]
    simpa [HD44780_NUM_ROWS, HD44780_NUM_COLS] using hoor
  · unfold HD44780_Read_Character
    rw [if_pos]
    simpa [HD44780_NUM_ROWS, HD44780_NUM_COLS] using hoor

/-- Witness for C9_out_of_range at (row, column) = (2, 0). -/
theorem C9_out_of_range_witness :
    ((2 : Nat) ≤ 2 ∨ (16 : Nat) ≤ 0) ∧
    Set_Cursor_PositionS 2 0 sys0 = sys0 ∧
    HD44780_Read_Character handle0 2 0 = 0 := by
  refine ⟨Or.inl (by decide), ?_⟩
  exact C9_out_of_range sys0 handle0 2 0 (Or.inl (by decide))

/- ################ C1: address-counter translation ################ -/

theorem Cursor_Translate_row (a : Nat) (h : HD44780_HandleTypeDef) :
    (Cursor_Translate a h).cursorRow = if a < 40 then 0 else 1 := by
  unfold Cursor_Translate
  split <;> rfl

theorem Cursor_Translate_col (a : Nat) (h : HD44780_HandleTypeDef) :
    (Cursor_Translate a h).cursorCol
      = if a < 40 then a else (a + 192) % 256 := by
  unfold Cursor_Translate
  split <;> rfl

theorem Cursor_Translate_Text (a : Nat) (h : HD44780_HandleTypeDef) :
    (Cursor_Translate a h).Text = h.Text := by
  unfold Cursor_Translate
  split <;> rfl

theorem Cursor_Translate_State (a : Nat) (h : HD44780_HandleTypeDef) :
    (Cursor_Translate a h).State = h.State := by
  unfold Cursor_Translate
  split <;> rfl

theorem Cursor_Translate_PowerState (a : Nat) (h : HD44780_HandleTypeDef) :
    (Cursor_Translate a h).PowerState = h.PowerState := by
  unfold Cursor_Translate
  split <;> rfl

/-- When the busy flag is observed clear, HD44780_Get_Cursor_Position leaves
the handle as the translation of the freshly stored address counter. -/
theorem Get_Cursor_Position_handle (r : Nat × Nat) (w : DriverState)
    (hclear : Check_Status_Data r &&& 128 = 0) :
    (HD44780_Get_Cursor_Position r w).handle
      = Cursor_Translate (Check_Status_Data r &&& 0x7F) ({ w.handle with State := HD44780_State.READY }) := by
  simp only [HD44780_Get_Cursor_Position, HD44780_Check_Status]
  rw [if_neg (by simpa using hclear)]

/-- C1: whenever a status read observes the busy flag clear, the address
counter a stored by HD44780_Check_Status is 7 bits, and the translation in
HD44780_Get_Cursor_Position maps it to (0, a) when a < 40 and to row 1 with
column the uint8 value of a - 64 when a ≥ 40 (the column equals a - 64
outright whenever a ≥ 64, which covers every address of the second row bank;
for the gap addresses 40..63 the uint8 subtraction wraps modulo 256). -/
theorem C1_cursor_translation (r : Nat × Nat) (w : DriverState)
    (hclear : Check_Status_Data r &&& 128 = 0) :
    Check_Status_Data r &&& 0x7F < 128 ∧
    (Check_Status_Data r &&& 0x7F < 40 →
      (HD44780_Get_Cursor_Position r w).handle.cursorRow = 0 ∧
      (HD44780_Get_Cursor_Position r w).handle.cursorCol
        = Check_Status_Data r &&& 0x7F) ∧
    (40 ≤ Check_Status_Data r &&& 0x7F →
      (HD44780_Get_Cursor_Position r w).handle.cursorRow = 1 ∧
      ((HD44780_Get_Cursor_Position r w).handle.cursorCol : Int)
        = (((Check_Status_Data r &&& 0x7F : Nat) : Int) - 64) % 256 ∧
      (64 ≤ Check_Status_Data r &&& 0x7F →
        (HD44780_Get_Cursor_Position r w).handle.cursorCol
          = (Check_Status_Data r &&& 0x7F) - 64)) := by
  have hle : Check_Status_Data r &&& 0x7F ≤ 127 := Nat.and_le_right
  have hh := Get_Cursor_Position_handle r w hclear
  refine ⟨by omega, ?_, ?_⟩
  · intro hlt
    rw [hh, Cursor_Translate_row, Cursor_Translate_col, if_pos hlt, if_pos hlt]
    exact ⟨rfl, rfl⟩
  · intro hge
    have hcol : (HD44780_Get_Cursor_Position r w).handle.cursorCol
        = ((Check_Status_Data r &&& 0x7F) + 192) % 256 := by
      rw [hh, Cursor_Translate_col, if_neg (by omega)]
    refine ⟨?_, ?_, ?_⟩
    · rw [hh, Cursor_Translate_row, if_neg (by omega)]
    · rw [hcol]
      push_cast
      omega
    · intro h64
      rw [hcol]
      omega

/-- Witness for C1_cursor_translation: received bytes (0x45, 0x50) reconstruct
status byte 0x45 (busy clear, address 69 ≥ 64), giving cursor row 1, column 5. -/
theorem C1_cursor_translation_witness :
    Check_Status_Data (0x45, 0x50) &&& 128 = 0 ∧
    (64 ≤ Check_Status_Data (0x45, 0x50) &&& 0x7F ∧
     (HD44780_Get_Cursor_Position (0x45, 0x50) world0).handle.cursorCol
       = (Check_Status_Data (0x45, 0x50) &&& 0x7F) - 64) := by
  refine ⟨by decide, by decide, ?_⟩
  exact ((C1_cursor_translation (0x45, 0x50) world0 (by decide)).2.2
    (by decide)).2.2 (by decide)

/- ################ C4: retry exhaustion and timeout escalation ############ -/

/-- If every attempt the loop can make observes the busy flag set, the retry
loop reports failure. -/
theorem Check_Busy_Loop_all_busy (readings : Nat → Nat × Nat) :
    ∀ (n i : Nat) (w : DriverState),
      (∀ j, i ≤ j → j < i + n → Check_Status_Data (readings j) &&& 128 ≠ 0) →
      (Check_Busy_Loop readings i n w).2 = false := by
  intro n
  induction n with
  | zero => intro i w _; rfl
  | succ m ih =>
    intro i w hb
    have hbusy : Check_Status_Data (readings i) &&& 128 ≠ 0 :=
      hb i (le_refl i) (by omega)
    have hstate : (HD44780_Check_Status (readings i) w).handle.State
        = HD44780_State.BUSY := by
      unfold HD44780_Check_Status
      rw [if_pos (by simpa using hbusy)]
    show (Check_Busy_Loop readings i (m + 1) w).2 = false
    unfold Check_Busy_Loop
    rw [if_neg (by simp [hstate])]
    exact ih (i + 1) _ (fun j hj1 hj2 => hb j (by omega) (by omega))

theorem Send_Command_timeout (readings : Nat → Nat × Nat) (Command : Nat)
    (w : DriverState)
    (hloop : ∀ w1, (Check_Busy_Loop readings 0 20 w1).2 = false) :
    (HD44780_Send_Command readings Command true w).2 = 1 ∧
    (HD44780_Send_Command readings Command true w).1.handle.State
      = HD44780_State.TIMEOUT := by
  unfold HD44780_Send_Command
  rw [if_pos rfl]
  dsimp only
  rw [hloop]
  exact ⟨rfl, rfl⟩

theorem Send_Data_timeout (readings : Nat → Nat × Nat) (Data : Nat)
    (w : DriverState)
    (hloop : ∀ w1, (Check_Busy_Loop readings 0 20 w1).2 = false) :
    (HD44780_Send_Data readings Data true w).2 = 1 ∧
    (HD44780_Send_Data readings Data true w).1.handle.State
      = HD44780_State.TIMEOUT := by
  unfold HD44780_Send_Data
  rw [if_pos rfl]
  dsimp only
  rw [hloop]
  exact ⟨rfl, rfl⟩

/-- The reference HD44780_Error_Handler body is empty, so the while loop never
observes READY once entered with a non-READY state: it spins forever. -/
theorem Error_Handler_id_spins :
    ∀ (fuel : Nat) (h : HD44780_HandleTypeDef), h.State ≠ HD44780_State.READY →
      HD44780_Error_Handler (fun x => x) fuel h = none := by
  intro fuel
  induction fuel with
  | zero => intro h _; rfl
  | succ m ih =>
    intro h hne
    unfold HD44780_Error_Handler
    rw [if_neg hne]
    exact ih h hne

/-- The error-handler while loop exits only with State = READY: the sole way
back to READY is a transition made by the user-supplied body. -/
theorem Error_Handler_exit_ready :
    ∀ (body : HD44780_HandleTypeDef → HD44780_HandleTypeDef) (fuel : Nat)
      (h h2 : HD44780_HandleTypeDef),
      HD44780_Error_Handler body fuel h = some h2 →
      h2.State = HD44780_State.READY := by
  intro body fuel
  induction fuel with
  | zero => intro h h2 hcontra; cases hcontra
  | succ m ih =>
    intro h h2 heq
    unfold HD44780_Error_Handler at heq
    by_cases hr : h.State = HD44780_State.READY
    · rw [if_pos hr] at heq
      cases heq
      exact hr
    · rw [if_neg hr] at heq
      exact ih _ _ heq

/-- C4: when every one of the 20 status-read attempts observes the busy flag
set, HD44780_Send_Command and HD44780_Send_Data leave State = TIMEOUT and
invoke HD44780_Error_Handler exactly once for the exhausted command; the
reference handler (empty body) then spins forever, and in general the handler
loop can only exit with State = READY, i.e. by a transition its own body
makes. -/
theorem C4_timeout_escalation (readings : Nat → Nat × Nat) (Command Data : Nat)
    (w : DriverState)
    (hbusy : ∀ j, j < 20 → Check_Status_Data (readings j) &&& 128 ≠ 0) :
    (HD44780_Send_Command readings Command true w).2 = 1 ∧
    (HD44780_Send_Command readings Command true w).1.handle.State
      = HD44780_State.TIMEOUT ∧
    (HD44780_Send_Data readings Data true w).2 = 1 ∧
    (HD44780_Send_Data readings Data true w).1.handle.State
      = HD44780_State.TIMEOUT ∧
    (∀ (fuel : Nat) (h : HD44780_HandleTypeDef),
      h.State ≠ HD44780_State.READY →
      HD44780_Error_Handler (fun x => x) fuel h = none) ∧
    (∀ (body : HD44780_HandleTypeDef → HD44780_HandleTypeDef) (fuel : Nat)
      (h h2 : HD44780_HandleTypeDef),
      HD44780_Error_Handler body fuel h = some h2 →
      h2.State = HD44780_State.READY) := by
  have hloop : ∀ w1, (Check_Busy_Loop readings 0 20 w1).2 = false := fun w1 =>
    Check_Busy_Loop_all_busy readings 20 0 w1 (fun j hj1 hj2 => hbusy j (by omega))
  exact ⟨(Send_Command_timeout readings Command w hloop).1,
         (Send_Command_timeout readings Command w hloop).2,
         (Send_Data_timeout readings Data w hloop).1,
         (Send_Data_timeout readings Data w hloop).2,
         Error_Handler_id_spins, Error_Handler_exit_ready⟩

/-- Witness for C4_timeout_escalation: a controller that always answers with
the busy flag set (received bytes (0x80, 0) on every poll). -/
theorem C4_timeout_escalation_witness :
    (∀ j, j < 20 →
      Check_Status_Data ((fun _ => ((0x80 : Nat), (0 : Nat))) j) &&& 128 ≠ 0) ∧
    (HD44780_Send_Command (fun _ => ((0x80 : Nat), (0 : Nat))) 0x01 true world0).2
      = 1 := by
  refine ⟨by decide, ?_⟩
  exact (C4_timeout_escalation (fun _ => ((0x80 : Nat), (0 : Nat))) 0x01 0x41
    world0 (by decide)).1

/- ################ Equations for the driver over an idle controller ######## -/

theorem one_shl7 : (1 : Nat) <<< 7 = 128 := rfl

/-- An idle controller answers a status poll with busy clear and its 7-bit
address counter, checked for all 128 address values. -/
theorem idealReads_data : ∀ a, a < 128 →
    Check_Status_Data (a, (a <<< 4) % 256) = a ∧
    a &&& 128 = 0 ∧ a &&& 0x7F = a := by
  decide

theorem Check_Status_ideal (d : LCDDevice) (w : DriverState) (h : d.ac < 128) :
    HD44780_Check_Status (idealReads d) w
      = { w with handle.State := HD44780_State.READY,
                 AddressCounter := d.ac,
                 bus := w.bus ++ Status_Read_writes } := by
  obtain ⟨h1, h2, h3⟩ := idealReads_data d.ac h
  show HD44780_Check_Status (d.ac, (d.ac <<< 4) % 256) w = _
  unfold HD44780_Check_Status
  rw [one_shl7, h1, if_neg (by simp [h2]), h3]

theorem Check_Busy_Loop_ideal (d : LCDDevice) (w : DriverState)
    (h : d.ac < 128) (i n : Nat) :
    Check_Busy_Loop (fun _ => idealReads d) i (n + 1) w
      = (HD44780_Check_Status (idealReads d) w, true) := by
  unfold Check_Busy_Loop
  dsimp only
  rw [Check_Status_ideal d w h]
  rfl

theorem Send_CommandS_eq (Command : Nat) (s : LCDSystem)
    (h : (LCDDevice.exec Command s.dev).ac < 128) :
    Send_CommandS Command true s
      = { w := { handle := { s.w.handle with State := HD44780_State.READY },
                 AddressCounter := (LCDDevice.exec Command s.dev).ac,
                 bus := (s.w.bus ++ Send_Command_writes Command) ++ Status_Read_writes },
          dev := LCDDevice.exec Command s.dev } := by
  unfold Send_CommandS
  dsimp only
  unfold HD44780_Send_Command
  rw [if_pos rfl]
  dsimp only
  rw [Check_Busy_Loop_ideal (LCDDevice.exec Command s.dev) _ h 0 19]
  rw [Check_Status_ideal (LCDDevice.exec Command s.dev) _ h]
  rfl

theorem Send_DataS_eq (Data : Nat) (s : LCDSystem) :
    Send_DataS Data true s
      = { w := { handle := { s.w.handle with State := HD44780_State.READY },
                 AddressCounter := (s.dev.ac + 1) % 128,
                 bus := (s.w.bus ++ Send_Data_writes Data) ++ Status_Read_writes },
          dev := { ac := (s.dev.ac + 1) % 128, writes := s.dev.writes + 1 } } := by
  have h : (LCDDevice.write s.dev).ac < 128 := by
    unfold LCDDevice.write
    exact Nat.mod_lt _ (by norm_num)
  unfold Send_DataS
  dsimp only
  unfold HD44780_Send_Data
  rw [if_pos rfl]
  dsimp only
  rw [Check_Busy_Loop_ideal (LCDDevice.write s.dev) _ h 0 19]
  rw [Check_Status_ideal (LCDDevice.write s.dev) _ h]
  rfl

theorem Get_Cursor_PositionS_eq (s : LCDSystem) (h : s.dev.ac < 128) :
    Get_Cursor_PositionS s
      = { w := { handle := Cursor_Translate s.dev.ac ({ s.w.handle with State := HD44780_State.READY }),
                 AddressCounter := s.dev.ac,
                 bus := s.w.bus ++ Status_Read_writes },
          dev := s.dev } := by
  unfold Get_Cursor_PositionS HD44780_Get_Cursor_Position
  dsimp only
  rw [Check_Status_ideal s.dev s.w h]

theorem exec_ddram (Command : Nat) (d : LCDDevice)
    (hbit : Command &&& (1 <<< 7) ≠ 0) :
    LCDDevice.exec Command d = { d with ac := Command &&& 0x7F } := by
  unfold LCDDevice.exec
  rw [if_pos hbit]

theorem exec_ac_lt (Command : Nat) (d : LCDDevice) (h : d.ac < 128) :
    (LCDDevice.exec Command d).ac < 128 := by
  have hb : Command &&& 0x7F ≤ 127 := Nat.and_le_right
  unfold LCDDevice.exec
  split
  · show Command &&& 0x7F < 128
    omega
  · split
    · show (0 : Nat) < 128
      norm_num
    · exact h

/-- The DDRAM-address command bytes HD44780_Set_Cursor_Position frames, for
every in-range column: bit 7 set, 7-bit payload col (row 0) or 64 + col
(row 1). -/
theorem ddram_cmd_bits : ∀ c, c < 16 →
    ((0x80 ||| c) &&& (1 <<< 7) ≠ 0 ∧ (0x80 ||| c) &&& 0x7F = c ∧
     (0x80 ||| 0x40 ||| c) &&& (1 <<< 7) ≠ 0 ∧
     (0x80 ||| 0x40 ||| c) &&& 0x7F = 64 + c) := by
  decide

/- ################ C2: set-cursor / status-read round trip ################ -/

/-- C2: for every coordinate inside the 2 x 16 geometry, framing the DDRAM
address command of HD44780_Set_Cursor_Position and then performing a status
read yields an address counter whose translation (HD44780_Get_Cursor_Position)
is exactly (row, col) again. -/
theorem C2_set_cursor_roundtrip (s : LCDSystem) (row col : Nat)
    (hr : row < 2) (hc : col < 16) :
    (Get_Cursor_PositionS (Set_Cursor_PositionS row col s)).w.handle.cursorRow
      = row ∧
    (Get_Cursor_PositionS (Set_Cursor_PositionS row col s)).w.handle.cursorCol
      = col := by
  have hguard : ¬ (HD44780_NUM_ROWS ≤ row ∨ HD44780_NUM_COLS ≤ col) := by
    simp only [HD44780_NUM_ROWS, HD44780_NUM_COLS, not_or, not_le]
    exact ⟨hr, hc⟩
  obtain ⟨hbit0, hmask0, hbit1, hmask1⟩ := ddram_cmd_bits col hc
  unfold Set_Cursor_PositionS
  rw [if_neg hguard]
  by_cases h0 : row = 0
  · subst h0
    rw [if_pos rfl]
    have hexec : LCDDevice.exec (0x80 ||| col) s.dev = { s.dev with ac := col } := by
      rw [exec_ddram _ _ hbit0, hmask0]
    rw [Send_CommandS_eq _ _ (by rw [hexec]; dsimp only; omega)]
    rw [hexec]
    rw [Get_Cursor_PositionS_eq _ (by dsimp only; omega)]
    dsimp only
    rw [Cursor_Translate_row, Cursor_Translate_col,
      if_pos (show col < 40 by omega), if_pos (show col < 40 by omega)]
    exact ⟨rfl, rfl⟩
  · have h1 : row = 1 := by omega
    subst h1
    rw [if_neg (by norm_num)]
    have hexec : LCDDevice.exec (0x80 ||| 0x40 ||| col) s.dev
        = { s.dev with ac := 64 + col } := by
      rw [exec_ddram _ _ hbit1, hmask1]
    rw [Send_CommandS_eq _ _ (by rw [hexec]; dsimp only; omega)]
    rw [hexec]
    rw [Get_Cursor_PositionS_eq _ (by dsimp only; omega)]
    dsimp only
    rw [Cursor_Translate_row, Cursor_Translate_col,
      if_neg (show ¬ (64 + col < 40) by omega), if_neg (show ¬ (64 + col < 40) by omega)]
    exact ⟨rfl, by omega⟩

/-- Witness for C2_set_cursor_roundtrip at (row, col) = (1, 7) from sys0. -/
theorem C2_set_cursor_roundtrip_witness :
    (1 : Nat) < 2 ∧ (7 : Nat) < 16 ∧
    ((Get_Cursor_PositionS (Set_Cursor_PositionS 1 7 sys0)).w.handle.cursorRow = 1 ∧
     (Get_Cursor_PositionS (Set_Cursor_PositionS 1 7 sys0)).w.handle.cursorCol = 7) := by
  refine ⟨by decide, by decide, ?_⟩
  exact C2_set_cursor_roundtrip sys0 1 7 (by decide) (by decide)

/- ################ C10: set-cursor leaves the cache untouched ############# -/

/-- C10: for in-range coordinates HD44780_Set_Cursor_Position transmits the
framed DDRAM-address command (followed by one status poll) but never writes
the cached Cursor_Position, Text or PowerState fields: immediately after it
returns, HD44780_Get_Row_Index and HD44780_Get_Column_Index still return the
values cached before the call. -/
theorem C10_set_cursor_frame (s : LCDSystem) (row col : Nat)
    (hr : row < 2) (hc : col < 16) :
    HD44780_Get_Row_Index (Set_Cursor_PositionS row col s).w.handle
      = HD44780_Get_Row_Index s.w.handle ∧
    HD44780_Get_Column_Index (Set_Cursor_PositionS row col s).w.handle
      = HD44780_Get_Column_Index s.w.handle ∧
    (Set_Cursor_PositionS row col s).w.handle.cursorRow = s.w.handle.cursorRow ∧
    (Set_Cursor_PositionS row col s).w.handle.cursorCol = s.w.handle.cursorCol ∧
    (Set_Cursor_PositionS row col s).w.handle.Text = s.w.handle.Text ∧
    (Set_Cursor_PositionS row col s).w.handle.PowerState = s.w.handle.PowerState ∧
    (Set_Cursor_PositionS row col s).w.bus
      = (s.w.bus ++ Send_Command_writes
          (if row = 0 then 0x80 ||| col else 0x80 ||| 0x40 ||| col))
        ++ Status_Read_writes := by
  have hguard : ¬ (HD44780_NUM_ROWS ≤ row ∨ HD44780_NUM_COLS ≤ col) := by
    simp only [HD44780_NUM_ROWS, HD44780_NUM_COLS, not_or, not_le]
    exact ⟨hr, hc⟩
  obtain ⟨hbit0, hmask0, hbit1, hmask1⟩ := ddram_cmd_bits col hc
  unfold Set_Cursor_PositionS
  rw [if_neg hguard]
  by_cases h0 : row = 0
  · subst h0
    rw [if_pos rfl]
    rw [Send_CommandS_eq _ _ (by rw [exec_ddram _ _ hbit0, hmask0]; dsimp only; omega)]
    exact ⟨rfl, rfl, rfl, rfl, rfl, rfl, rfl⟩
  · have h1 : row = 1 := by omega
    subst h1
    rw [if_neg (by norm_num)]
    rw [Send_CommandS_eq _ _ (by rw [exec_ddram _ _ hbit1, hmask1]; dsimp only; omega)]
    exact ⟨rfl, rfl, rfl, rfl, rfl, rfl, rfl⟩

/-- Witness for C10_set_cursor_frame at (row, col) = (0, 3) from sys0. -/
theorem C10_set_cursor_frame_witness :
    (0 : Nat) < 2 ∧ (3 : Nat) < 16 ∧
    (Set_Cursor_PositionS 0 3 sys0).w.handle.cursorRow = sys0.w.handle.cursorRow := by
  refine ⟨by decide, by decide, ?_⟩
  exact (C10_set_cursor_frame sys0 0 3 (by decide) (by decide)).2.2.1

/- ################ C5: power-state-keyed command dispatch ################# -/

theorem Send_CommandS_bus_length (Command : Nat) (s : LCDSystem)
    (h : (LCDDevice.exec Command s.dev).ac < 128) :
    (Send_CommandS Command true s).w.bus.length = s.w.bus.length + 9 := by
  rw [Send_CommandS_eq _ _ h]
  dsimp only
  rw [List.length_append, List.length_append]
  have h4 : (Send_Command_writes Command).length = 4 := rfl
  have h5 : Status_Read_writes.length = 5 := rfl
  omega

/-- A command accepted in the current power state grows the bus trace; the
rejected one leaves the whole system untouched.  With PowerState = ON the
only rejected user command is DISPLAY_ON. -/
theorem Transmit_effect_iff (s : LCDSystem)
    (hOn : s.w.handle.PowerState = LCD1602_State.ON) (hac : s.dev.ac < 128)
    (c : HD44780_User_Command_List) :
    (HD44780_Transmit_Command c s).w.bus.length > s.w.bus.length
      ↔ c ≠ HD44780_User_Command_List.DISPLAY_ON := by
  cases c with
  | CLEAR_DISPLAY =>
    have hb := Send_CommandS_bus_length 0x01 s (exec_ac_lt 0x01 s.dev hac)
    unfold HD44780_Transmit_Command
    rw [if_pos hOn]
    dsimp only
    constructor
    · intro _
      intro hx
      cases hx
    · intro _
      rw [hb]
      omega
  | RETURN_HOME =>
    have hb := Send_CommandS_bus_length 0x02 s (exec_ac_lt 0x02 s.dev hac)
    unfold HD44780_Transmit_Command
    rw [if_pos hOn]
    dsimp only
    constructor
    · intro _
      intro hx
      cases hx
    · intro _
      rw [hb]
      omega
  | DISPLAY_ON =>
    unfold HD44780_Transmit_Command
    rw [if_pos hOn]
    dsimp only
    constructor
    · intro hgt
      omega
    · intro hne
      exact absurd rfl hne
  | DISPLAY_OFF =>
    unfold HD44780_Transmit_Command
    rw [if_pos hOn]
    dsimp only
    rw [List.length_append]
    constructor
    · intro _
      intro hx
      cases hx
    · intro _
      simp
  | CURSOR_ON =>
    have hb := Send_CommandS_bus_length 0x0E s (exec_ac_lt 0x0E s.dev hac)
    unfold HD44780_Transmit_Command
    rw [if_pos hOn]
    dsimp only
    constructor
    · intro _
      intro hx
      cases hx
    · intro _
      rw [hb]
      omega
  | CURSOR_OFF =>
    have hb := Send_CommandS_bus_length 0x0C s (exec_ac_lt 0x0C s.dev hac)
    unfold HD44780_Transmit_Command
    rw [if_pos hOn]
    dsimp only
    constructor
    · intro _
      intro hx
      cases hx
    · intro _
      rw [hb]
      omega
  | CURSOR_BLINK =>
    have hb := Send_CommandS_bus_length 0x0D s (exec_ac_lt 0x0D s.dev hac)
    unfold HD44780_Transmit_Command
    rw [if_pos hOn]
    dsimp only
    constructor
    · intro _
      intro hx
      cases hx
    · intro _
      rw [hb]
      omega
  | CURSOR_UNBLINK =>
    have hb := Send_CommandS_bus_length 0x0C s (exec_ac_lt 0x0C s.dev hac)
    unfold HD44780_Transmit_Command
    rw [if_pos hOn]
    dsimp only
    constructor
    · intro _
      intro hx
      cases hx
    · intro _
      rw [hb]
      omega

/-- C5: HD44780_Transmit_Command implements the power-state-keyed acceptance
sets.  With PowerState ON: DISPLAY_ON is a complete no-op, DISPLAY_OFF is a
single raw byte 0x00 (backlight bit clear) that flips PowerState to OFF, and
every other command issues bus transactions.  With PowerState OFF: DISPLAY_ON
is a single raw byte with only the backlight bit set and flips PowerState to
ON, while every other command (including DISPLAY_OFF while already off) is a
complete no-op with no bus transaction.  Toggling off then on restores the
power state to ON and with it exactly the original accepted command set. -/
theorem C5_power_dispatch (s : LCDSystem)
    (hOn : s.w.handle.PowerState = LCD1602_State.ON)
    (hac : s.dev.ac < 128) :
    HD44780_Transmit_Command HD44780_User_Command_List.DISPLAY_ON s = s ∧
    HD44780_Transmit_Command HD44780_User_Command_List.DISPLAY_OFF s
      = { s with w.bus := s.w.bus ++ [0],
                 w.handle.PowerState := LCD1602_State.OFF } ∧
    (0 : Nat) &&& HD44780_BACKLIGHT = 0 ∧
    (∀ c, c ≠ HD44780_User_Command_List.DISPLAY_ON →
      (HD44780_Transmit_Command c s).w.bus.length > s.w.bus.length) ∧
    (∀ s2 : LCDSystem, s2.w.handle.PowerState = LCD1602_State.OFF →
      (HD44780_Transmit_Command HD44780_User_Command_List.DISPLAY_ON s2
        = { s2 with w.bus := s2.w.bus ++ [HD44780_BACKLIGHT],
                    w.handle.PowerState := LCD1602_State.ON }) ∧
      HD44780_BACKLIGHT &&& HD44780_BACKLIGHT ≠ 0 ∧
      (∀ c, c ≠ HD44780_User_Command_List.DISPLAY_ON →
        HD44780_Transmit_Command c s2 = s2)) ∧
    (HD44780_Transmit_Command HD44780_User_Command_List.DISPLAY_ON
      (HD44780_Transmit_Command HD44780_User_Command_List.DISPLAY_OFF s)).w.handle.PowerState
      = LCD1602_State.ON ∧
    (∀ c, ((HD44780_Transmit_Command c
        (HD44780_Transmit_Command HD44780_User_Command_List.DISPLAY_ON
          (HD44780_Transmit_Command HD44780_User_Command_List.DISPLAY_OFF s))).w.bus.length
        > (HD44780_Transmit_Command HD44780_User_Command_List.DISPLAY_ON
            (HD44780_Transmit_Command HD44780_User_Command_List.DISPLAY_OFF s)).w.bus.length)
      ↔ ((HD44780_Transmit_Command c s).w.bus.length > s.w.bus.length)) := by
  have hOffEq : HD44780_Transmit_Command HD44780_User_Command_List.DISPLAY_OFF s
      = { s with w.bus := s.w.bus ++ [0],
                 w.handle.PowerState := LCD1602_State.OFF } := by
    unfold HD44780_Transmit_Command
    rw [if_pos hOn]
  have hOffPow : (HD44780_Transmit_Command HD44780_User_Command_List.DISPLAY_OFF s).w.handle.PowerState
      = LCD1602_State.OFF := by
    rw [hOffEq]
  have hOnOffEq : ∀ s2 : LCDSystem, s2.w.handle.PowerState = LCD1602_State.OFF →
      HD44780_Transmit_Command HD44780_User_Command_List.DISPLAY_ON s2
        = { s2 with w.bus := s2.w.bus ++ [HD44780_BACKLIGHT],
                    w.handle.PowerState := LCD1602_State.ON } := by
    intro s2 hOff
    unfold HD44780_Transmit_Command
    rw [if_neg (by rw [hOff]; intro hx; cases hx)]
  have hNoOpOff : ∀ s2 : LCDSystem, s2.w.handle.PowerState = LCD1602_State.OFF →
      ∀ c, c ≠ HD44780_User_Command_List.DISPLAY_ON →
        HD44780_Transmit_Command c s2 = s2 := by
    intro s2 hOff c hc
    unfold HD44780_Transmit_Command
    rw [if_neg (by rw [hOff]; intro hx; cases hx)]
    cases c with
    | CLEAR_DISPLAY => rfl
    | RETURN_HOME => rfl
    | DISPLAY_ON => exact absurd rfl hc
    | DISPLAY_OFF => rfl
    | CURSOR_ON => rfl
    | CURSOR_OFF => rfl
    | CURSOR_BLINK => rfl
    | CURSOR_UNBLINK => rfl
  have hPow2 : (HD44780_Transmit_Command HD44780_User_Command_List.DISPLAY_ON
      (HD44780_Transmit_Command HD44780_User_Command_List.DISPLAY_OFF s)).w.handle.PowerState
      = LCD1602_State.ON := by
    rw [hOnOffEq _ hOffPow]
  have hac2 : (HD44780_Transmit_Command HD44780_User_Command_List.DISPLAY_ON
      (HD44780_Transmit_Command HD44780_User_Command_List.DISPLAY_OFF s)).dev.ac < 128 := by
    rw [hOnOffEq _ hOffPow, hOffEq]
    exact hac
  refine ⟨?_, hOffEq, by decide, ?_, ?_, hPow2, ?_⟩
  · unfold HD44780_Transmit_Command
    rw [if_pos hOn]
  · intro c hc
    exact (Transmit_effect_iff s hOn hac c).mpr hc
  · intro s2 hOff
    exact ⟨hOnOffEq s2 hOff, by decide, hNoOpOff s2 hOff⟩
  · intro c
    exact (Transmit_effect_iff _ hPow2 hac2 c).trans
      (Transmit_effect_iff s hOn hac c).symm

/-- Witness for C5_power_dispatch at sys0 (powered on, controller at 0). -/
theorem C5_power_dispatch_witness :
    sys0.w.handle.PowerState = LCD1602_State.ON ∧ sys0.dev.ac < 128 ∧
    HD44780_Transmit_Command HD44780_User_Command_List.DISPLAY_ON sys0 = sys0 := by
  refine ⟨rfl, by decide, ?_⟩
  exact (C5_power_dispatch sys0 rfl (by decide)).1

/- ################ C8: clear display empties the mirror ################### -/

theorem exec_01 (d : LCDDevice) : LCDDevice.exec 0x01 d = { d with ac := 0 } := by
  unfold LCDDevice.exec
  rw [if_neg (by decide), if_pos (by decide)]

/-- Folding set-to-zero over List.range k: length is preserved, every index
below k (and inside the list) reads 0, every index at or above k is
untouched. -/
theorem clear_fold_getD : ∀ (k : Nat) (t : List Nat),
    (((List.range k).foldl (fun acc i => acc.set i 0) t).length = t.length) ∧
    (∀ j, j < t.length → j < k →
      ((List.range k).foldl (fun acc i => acc.set i 0) t).getD j 0 = 0) ∧
    (∀ j, k ≤ j →
      ((List.range k).foldl (fun acc i => acc.set i 0) t).getD j 0
        = t.getD j 0) := by
  intro k
  induction k with
  | zero =>
    intro t
    refine ⟨rfl, ?_, ?_⟩
    · intro j _ hj
      omega
    · intro j _
      rfl
  | succ m ih =>
    intro t
    obtain ⟨ihlen, ihlo, ihhi⟩ := ih t
    rw [List.range_succ, List.foldl_append, List.foldl_cons, List.foldl_nil]
    refine ⟨?_, ?_, ?_⟩
    · rw [List.length_set]
      exact ihlen
    · intro j hj hjk
      by_cases hjm : j = m
      · subst hjm
        exact getD_set_self _ _ _ (by omega)
      · rw [getD_set_ne _ _ _ _ (fun hx => hjm hx.symm)]
        exact ihlo j hj (by omega)
    · intro j hj
      rw [getD_set_ne _ _ _ _ (by omega)]
      exact ihhi j (by omega)

/-- C8: HD44780_Transmit_Command CLEAR_DISPLAY with PowerState ON nulls every
one of the 32 text-mirror slots and homes the cached cursor: afterwards
HD44780_Read_Character returns the null character at every in-range
coordinate, and HD44780_Get_Row_Index and HD44780_Get_Column_Index return 0. -/
theorem C8_clear_display (s : LCDSystem)
    (hOn : s.w.handle.PowerState = LCD1602_State.ON)
    (htext : s.w.handle.Text.length = 32) :
    (HD44780_Transmit_Command HD44780_User_Command_List.CLEAR_DISPLAY s).w.handle.cursorRow = 0 ∧
    (HD44780_Transmit_Command HD44780_User_Command_List.CLEAR_DISPLAY s).w.handle.cursorCol = 0 ∧
    HD44780_Get_Row_Index
      (HD44780_Transmit_Command HD44780_User_Command_List.CLEAR_DISPLAY s).w.handle = 0 ∧
    HD44780_Get_Column_Index
      (HD44780_Transmit_Command HD44780_User_Command_List.CLEAR_DISPLAY s).w.handle = 0 ∧
    (HD44780_Transmit_Command HD44780_User_Command_List.CLEAR_DISPLAY s).w.handle.Text.length = 32 ∧
    (∀ j, j < 32 →
      (HD44780_Transmit_Command HD44780_User_Command_List.CLEAR_DISPLAY s).w.handle.Text.getD j 0 = 0) ∧
    (∀ row col, row < 2 → col < 16 →
      HD44780_Read_Character
        (HD44780_Transmit_Command HD44780_User_Command_List.CLEAR_DISPLAY s).w.handle row col = 0) := by
  have hsc := Send_CommandS_eq 0x01 s (by rw [exec_01]; dsimp only; omega)
  have hT : (HD44780_Transmit_Command HD44780_User_Command_List.CLEAR_DISPLAY s).w.handle.Text
      = Clear_Text_Buffer s.w.handle.Text := by
    unfold HD44780_Transmit_Command
    rw [if_pos hOn]
    dsimp only
    rw [hsc]
  have hRow : (HD44780_Transmit_Command HD44780_User_Command_List.CLEAR_DISPLAY s).w.handle.cursorRow = 0 := by
    unfold HD44780_Transmit_Command
    rw [if_pos hOn]
  have hCol : (HD44780_Transmit_Command HD44780_User_Command_List.CLEAR_DISPLAY s).w.handle.cursorCol = 0 := by
    unfold HD44780_Transmit_Command
    rw [if_pos hOn]
  obtain ⟨hlen, hlo, _⟩ := clear_fold_getD 32 s.w.handle.Text
  have hCTlen : (Clear_Text_Buffer s.w.handle.Text).length = 32 := by
    unfold Clear_Text_Buffer
    rw [show HD44780_NUM_ELEMENTS = 32 from rfl]
    rw [hlen, htext]
  have hCTget : ∀ j, j < 32 → (Clear_Text_Buffer s.w.handle.Text).getD j 0 = 0 := by
    intro j hj
    unfold Clear_Text_Buffer
    rw [show HD44780_NUM_ELEMENTS = 32 from rfl]
    exact hlo j (by omega) hj
  refine ⟨hRow, hCol, hRow, hCol, ?_, ?_, ?_⟩
  · rw [hT]
    exact hCTlen
  · intro j hj
    rw [hT]
    exact hCTget j hj
  · intro row col hrow hcol
    unfold HD44780_Read_Character
    rw [if_neg (by simp only [HD44780_NUM_ROWS, HD44780_NUM_COLS, not_or, not_le]; exact ⟨hrow, hcol⟩)]
    rw [hT]
    exact hCTget _ (by simp only [HD44780_NUM_COLS]; omega)

/-- Witness for C8_clear_display at sys0. -/
theorem C8_clear_display_witness :
    sys0.w.handle.PowerState = LCD1602_State.ON ∧
    sys0.w.handle.Text.length = 32 ∧
    HD44780_Read_Character
      (HD44780_Transmit_Command HD44780_User_Command_List.CLEAR_DISPLAY sys0).w.handle 1 15 = 0 := by
  refine ⟨rfl, by decide, ?_⟩
  exact ((C8_clear_display sys0 rfl (by decide)).2.2.2.2.2.2) 1 15 (by decide) (by decide)

/- ################ C6 / C7: HD44780_Print ################ -/

/-- The controller address held after the print loop has emitted k characters
starting from DDRAM address 0: k itself while still in the row-0 bank, and
48 + k once the loop has hopped to the row-1 bank (the hop after the
character at index 15 lands on DDRAM address 64). -/
def acAfter (k : Nat) : Nat := if k < 16 then k else 48 + k

theorem acAfter_le (k : Nat) (hk : k ≤ 32) : acAfter k ≤ 80 := by
  unfold acAfter
  split <;> omega

theorem acAfter_succ (k : Nat) (hk : k ≤ 31) (hne : k ≠ 15) :
    acAfter k + 1 = acAfter (k + 1) := by
  unfold acAfter
  split <;> split <;> omega

theorem Cursor_Translate_zero (h : HD44780_HandleTypeDef) :
    Cursor_Translate 0 h = { h with cursorRow := 0, cursorCol := 0 } := rfl

theorem Set_Cursor_00 (s : LCDSystem) :
    Set_Cursor_PositionS 0 0 s
      = { w := { handle := { s.w.handle with State := HD44780_State.READY },
                 AddressCounter := 0,
                 bus := (s.w.bus ++ Send_Command_writes (0x80 ||| 0)) ++ Status_Read_writes },
          dev := { s.dev with ac := 0 } } := by
  unfold Set_Cursor_PositionS
  rw [if_neg (by decide), if_pos rfl]
  rw [Send_CommandS_eq _ _ (by rw [exec_ddram _ _ (by decide)]; dsimp only; decide)]
  rw [exec_ddram _ _ (by decide)]
  rw [show ((0x80 ||| (0 : Nat)) &&& 0x7F) = 0 from by decide]

theorem Set_Cursor_10 (s : LCDSystem) :
    Set_Cursor_PositionS 1 0 s
      = { w := { handle := { s.w.handle with State := HD44780_State.READY },
                 AddressCounter := 64,
                 bus := (s.w.bus ++ Send_Command_writes (0x80 ||| 0x40 ||| 0)) ++ Status_Read_writes },
          dev := { s.dev with ac := 64 } } := by
  unfold Set_Cursor_PositionS
  rw [if_neg (by decide), if_neg (by decide)]
  rw [Send_CommandS_eq _ _ (by rw [exec_ddram _ _ (by decide)]; dsimp only; decide)]
  rw [exec_ddram _ _ (by decide)]
  rw [show ((0x80 ||| 0x40 ||| (0 : Nat)) &&& 0x7F) = 64 from by decide]

/-- Loop invariant of HD44780_Print_go for a run whose linear start index is
st, the controller tracking acAfter of the number of characters mirrored so
far: the characters that fit land at consecutive mirror indices, exactly that
many data bytes are latched, and the loop either finishes with the cached
cursor refreshed from the final controller address or truncates, homes the
controller via the set-cursor command, and leaves the cached cursor alone. -/
theorem Print_go_spec (st : Nat) (rest : List Nat) :
    ∀ (i : Nat) (s : LCDSystem),
      s.dev.ac = acAfter (st + i) → st + i ≤ 32 →
      s.w.handle.Text.length = 32 →
      ((HD44780_Print_go rest st i s).w.handle.Text.length = 32) ∧
      (∀ j, j < 32 →
        (HD44780_Print_go rest st i s).w.handle.Text.getD j 0 =
          if st + i ≤ j ∧ j < st + i + min rest.length (32 - (st + i))
          then rest.getD (j - (st + i)) 0
          else s.w.handle.Text.getD j 0) ∧
      ((HD44780_Print_go rest st i s).dev.writes
        = s.dev.writes + min rest.length (32 - (st + i))) ∧
      (if st + i + rest.length ≤ 32 then
        (HD44780_Print_go rest st i s).dev.ac = acAfter (st + i + rest.length) ∧
        (HD44780_Print_go rest st i s).w.handle.cursorRow
          = (if acAfter (st + i + rest.length) < 40 then 0 else 1) ∧
        (HD44780_Print_go rest st i s).w.handle.cursorCol
          = (if acAfter (st + i + rest.length) < 40
             then acAfter (st + i + rest.length)
             else (acAfter (st + i + rest.length) + 192) % 256)
      else
        (HD44780_Print_go rest st i s).dev.ac = 0 ∧
        (HD44780_Print_go rest st i s).w.handle.cursorRow = s.w.handle.cursorRow ∧
        (HD44780_Print_go rest st i s).w.handle.cursorCol = s.w.handle.cursorCol) := by
  induction rest with
  | nil =>
    intro i s hac hle htext
    have hlt : s.dev.ac < 128 := by
      have := acAfter_le (st + i) hle
      omega
    simp only [HD44780_Print_go]
    rw [Get_Cursor_PositionS_eq s hlt]
    refine ⟨?_, ?_, ?_, ?_⟩
    · dsimp only
      rw [Cursor_Translate_Text]
      exact htext
    · intro j hj
      rw [if_neg (by simp only [List.length_nil]; omega)]
      dsimp only
      rw [Cursor_Translate_Text]
    · dsimp only
      simp only [List.length_nil]
      omega
    · rw [if_pos (by simp only [List.length_nil]; omega)]
      simp only [List.length_nil, Nat.add_zero]
      refine ⟨?_, ?_, ?_⟩
      · dsimp only
        exact hac
      · dsimp only
        rw [Cursor_Translate_row, hac]
      · dsimp only
        rw [Cursor_Translate_col, hac]
  | cons c cs ih =>
    intro i s hac hle htext
    have hA : acAfter (st + i) ≤ 80 := acAfter_le _ hle
    have hlc : (c :: cs).length = cs.length + 1 := rfl
    by_cases hgu : st + i ≤ 31
    case neg =>
      have h32 : st + i = 32 := by omega
      have hstep : HD44780_Print_go (c :: cs) st i s = Set_Cursor_PositionS 0 0 s := by
        simp only [HD44780_Print_go]
        rw [if_pos (by rw [show HD44780_NUM_ELEMENTS - 1 = 31 from rfl]; omega)]
      rw [hstep, Set_Cursor_00]
      refine ⟨htext, ?_, ?_, ?_⟩
      · intro j hj
        rw [if_neg (by omega)]
      · dsimp only
        omega
      · rw [if_neg (by omega)]
        exact ⟨rfl, rfl, rfl⟩
    case pos =>
      have hmod : (s.dev.ac + 1) % 128 = acAfter (st + i) + 1 := by
        rw [hac]
        exact Nat.mod_eq_of_lt (by omega)
      by_cases h15 : st + i = 15
      case pos =>
        have hstep : HD44780_Print_go (c :: cs) st i s
            = HD44780_Print_go cs st (i + 1)
                { w := { handle := { s.w.handle with State := HD44780_State.READY, Text := s.w.handle.Text.set (st + i) c },
                         AddressCounter := 64,
                         bus := (((s.w.bus ++ Send_Data_writes c) ++ Status_Read_writes) ++ Send_Command_writes (0x80 ||| 0x40 ||| 0)) ++ Status_Read_writes },
                  dev := { ac := 64, writes := s.dev.writes + 1 } } := by
          simp only [HD44780_Print_go]
          rw [if_neg (by rw [show HD44780_NUM_ELEMENTS - 1 = 31 from rfl]; omega)]
          rw [Send_DataS_eq]
          dsimp only
          rw [if_pos (by rw [hmod, h15]; decide)]
          rw [Set_Cursor_10]
        rw [hstep]
        obtain ⟨ihlen, ihget, ihwr, ihbr⟩ :=
          ih (i + 1)
            { w := { handle := { s.w.handle with State := HD44780_State.READY, Text := s.w.handle.Text.set (st + i) c },
                     AddressCounter := 64,
                     bus := (((s.w.bus ++ Send_Data_writes c) ++ Status_Read_writes) ++ Send_Command_writes (0x80 ||| 0x40 ||| 0)) ++ Status_Read_writes },
              dev := { ac := 64, writes := s.dev.writes + 1 } }
            (by dsimp only; rw [show st + (i + 1) = 16 from by omega]; rfl)
            (by omega)
            (by dsimp only; rw [List.length_set]; exact htext)
        refine ⟨ihlen, ?_, ?_, ?_⟩
        · intro j hj
          rw [ihget j hj]
          dsimp only
          by_cases hin : st + i ≤ j ∧ j < st + i + min (c :: cs).length (32 - (st + i))
          · rw [if_pos hin]
            by_cases hj0 : j = st + i
            · rw [if_neg (by omega)]
              subst hj0
              rw [Nat.sub_self, getD_set_self _ _ _ (by omega)]
              rfl
            · have hAtrue : st + (i + 1) ≤ j ∧
                  j < st + (i + 1) + min cs.length (32 - (st + (i + 1))) := by
                omega
              rw [if_pos hAtrue]
              have hidx : j - (st + i) = (j - (st + (i + 1))) + 1 := by omega
              rw [hidx]
              rfl
          · rw [if_neg hin]
            rw [if_neg (by omega)]
            exact getD_set_ne _ _ _ _ (by omega)
        · rw [ihwr]
          dsimp only
          omega
        · by_cases hC : st + i + (c :: cs).length ≤ 32
          · rw [if_pos hC]
            rw [if_pos (by omega)] at ihbr
            obtain ⟨iha, ihrow, ihcol⟩ := ihbr
            have hidx2 : st + (i + 1) + cs.length = st + i + (c :: cs).length := by
              omega
            rw [hidx2] at iha ihrow ihcol
            exact ⟨iha, ihrow, ihcol⟩
          · rw [if_neg hC]
            rw [if_neg (by omega)] at ihbr
            obtain ⟨iha, ihrow, ihcol⟩ := ihbr
            refine ⟨iha, ?_, ?_⟩
            · rw [ihrow]
            · rw [ihcol]
      case neg =>
        have hstep : HD44780_Print_go (c :: cs) st i s
            = HD44780_Print_go cs st (i + 1)
                { w := { handle := { s.w.handle with State := HD44780_State.READY, Text := s.w.handle.Text.set (st + i) c },
                         AddressCounter := acAfter (st + i) + 1,
                         bus := (s.w.bus ++ Send_Data_writes c) ++ Status_Read_writes },
                  dev := { ac := acAfter (st + i) + 1, writes := s.dev.writes + 1 } } := by
          simp only [HD44780_Print_go]
          rw [if_neg (by rw [show HD44780_NUM_ELEMENTS - 1 = 31 from rfl]; omega)]
          rw [Send_DataS_eq]
          dsimp only
          rw [if_neg (by rw [hmod, show HD44780_NUM_COLS = 16 from rfl]; unfold acAfter; split <;> omega)]
          rw [hmod]
        rw [hstep]
        obtain ⟨ihlen, ihget, ihwr, ihbr⟩ :=
          ih (i + 1)
            { w := { handle := { s.w.handle with State := HD44780_State.READY, Text := s.w.handle.Text.set (st + i) c },
                     AddressCounter := acAfter (st + i) + 1,
                     bus := (s.w.bus ++ Send_Data_writes c) ++ Status_Read_writes },
              dev := { ac := acAfter (st + i) + 1, writes := s.dev.writes + 1 } }
            (by dsimp only; rw [show st + (i + 1) = (st + i) + 1 from by omega]; exact acAfter_succ _ (by omega) h15)
            (by omega)
            (by dsimp only; rw [List.length_set]; exact htext)
        refine ⟨ihlen, ?_, ?_, ?_⟩
        · intro j hj
          rw [ihget j hj]
          dsimp only
          by_cases hin : st + i ≤ j ∧ j < st + i + min (c :: cs).length (32 - (st + i))
          · rw [if_pos hin]
            by_cases hj0 : j = st + i
            · rw [if_neg (by omega)]
              subst hj0
              rw [Nat.sub_self, getD_set_self _ _ _ (by omega)]
              rfl
            · have hAtrue : st + (i + 1) ≤ j ∧
                  j < st + (i + 1) + min cs.length (32 - (st + (i + 1))) := by
                omega
              rw [if_pos hAtrue]
              have hidx : j - (st + i) = (j - (st + (i + 1))) + 1 := by omega
              rw [hidx]
              rfl
          · rw [if_neg hin]
            rw [if_neg (by omega)]
            exact getD_set_ne _ _ _ _ (by omega)
        · rw [ihwr]
          dsimp only
          omega
        · by_cases hC : st + i + (c :: cs).length ≤ 32
          · rw [if_pos hC]
            rw [if_pos (by omega)] at ihbr
            obtain ⟨iha, ihrow, ihcol⟩ := ihbr
            have hidx2 : st + (i + 1) + cs.length = st + i + (c :: cs).length := by
              omega
            rw [hidx2] at iha ihrow ihcol
            exact ⟨iha, ihrow, ihcol⟩
          · rw [if_neg hC]
            rw [if_neg (by omega)] at ihbr
            obtain ⟨iha, ihrow, ihcol⟩ := ihbr
            refine ⟨iha, ?_, ?_⟩
            · rw [ihrow]
            · rw [ihcol]

/-- The system state right after the cursor refresh at the start of
HD44780_Print, for a run beginning at controller address 0. -/
def printStart (s : LCDSystem) : LCDSystem :=
  { w := { handle := { s.w.handle with State := HD44780_State.READY, cursorRow := 0, cursorCol := 0 },
           AddressCounter := s.dev.ac,
           bus := s.w.bus ++ Status_Read_writes },
    dev := s.dev }

theorem Print_eq_go (str : List Nat) (s : LCDSystem) (hac : s.dev.ac = 0) :
    HD44780_Print str s = HD44780_Print_go str 0 0 (printStart s) := by
  unfold HD44780_Print
  dsimp only
  rw [Get_Cursor_PositionS_eq s (by rw [hac]; decide)]
  rw [hac, Cursor_Translate_zero]
  dsimp only
  rw [show ((0 * HD44780_NUM_COLS + 0) % 256 : Nat) = 0 from rfl]
  unfold printStart
  rw [hac]

/-- C6: printing a string of length 16..32 from (0,0) on the 16 x 2 display
mirrors the consecutive characters at consecutive indices 0..length-1 with no
gap and no duplication across the row boundary, the remaining slots are
untouched, and both the controller address (48 + length, i.e. row-1 bank) and
the refreshed cached cursor (row 1, column length - 16) show that printing
continued on row 1 after the hop to (1,0). -/
theorem C6_print_row_wrap (str : List Nat) (s : LCDSystem)
    (h16 : 16 ≤ str.length) (h32 : str.length ≤ 32)
    (hac : s.dev.ac = 0) (htext : s.w.handle.Text.length = 32) :
    (∀ j, j < str.length →
      (HD44780_Print str s).w.handle.Text.getD j 0 = str.getD j 0) ∧
    (∀ j, str.length ≤ j → j < 32 →
      (HD44780_Print str s).w.handle.Text.getD j 0 = s.w.handle.Text.getD j 0) ∧
    (HD44780_Print str s).w.handle.cursorRow = 1 ∧
    (HD44780_Print str s).w.handle.cursorCol = str.length - 16 ∧
    (HD44780_Print str s).dev.ac = 48 + str.length ∧
    (HD44780_Print str s).dev.writes = s.dev.writes + str.length := by
  obtain ⟨hlen, hget, hwr, hbr⟩ :=
    Print_go_spec 0 str 0 (printStart s)
      (by unfold printStart; dsimp only; rw [hac]; rfl)
      (by omega)
      (by unfold printStart; dsimp only; exact htext)
  rw [Print_eq_go str s hac]
  rw [if_pos (by omega)] at hbr
  obtain ⟨hac2, hrow, hcol⟩ := hbr
  have hacv : acAfter (0 + 0 + str.length) = 48 + str.length := by
    unfold acAfter
    split <;> omega
  rw [hacv] at hac2 hrow hcol
  rw [if_neg (by omega)] at hrow hcol
  refine ⟨?_, ?_, hrow, ?_, hac2, ?_⟩
  · intro j hj
    rw [hget j (by omega), if_pos (by omega),
      show j - (0 + 0) = j from by omega]
  · intro j hjl hj32
    rw [hget j hj32, if_neg (by omega)]
    rfl
  · rw [hcol]
    omega
  · rw [hwr]
    unfold printStart
    dsimp only
    omega

/-- Witness for C6_print_row_wrap: sixteen character codes 65 printed from
sys0 end with the cached cursor on row 1. -/
theorem C6_print_row_wrap_witness :
    16 ≤ (List.replicate 16 65).length ∧ (List.replicate 16 65).length ≤ 32 ∧
    sys0.dev.ac = 0 ∧ sys0.w.handle.Text.length = 32 ∧
    (HD44780_Print (List.replicate 16 65) sys0).w.handle.cursorRow = 1 := by
  refine ⟨by decide, by decide, rfl, by decide, ?_⟩
  exact (C6_print_row_wrap (List.replicate 16 65) sys0
    (by decide) (by decide) rfl (by decide)).2.2.1

/-- C7: printing a string longer than the 32-slot mirror from (0,0) writes
exactly the 32 characters that fit, latches exactly 32 data bytes (stopping
before the first character that does not fit), homes the controller address
to 0 through the set-cursor command, and leaves the cached cursor at (0,0);
the rest of the string is never written (the mirror still has 32 slots). -/
theorem C7_print_truncation (str : List Nat) (s : LCDSystem)
    (hov : 32 < str.length) (hac : s.dev.ac = 0)
    (htext : s.w.handle.Text.length = 32) :
    (∀ j, j < 32 →
      (HD44780_Print str s).w.handle.Text.getD j 0 = str.getD j 0) ∧
    (HD44780_Print str s).w.handle.Text.length = 32 ∧
    (HD44780_Print str s).dev.writes = s.dev.writes + 32 ∧
    (HD44780_Print str s).dev.ac = 0 ∧
    (HD44780_Print str s).w.handle.cursorRow = 0 ∧
    (HD44780_Print str s).w.handle.cursorCol = 0 := by
  obtain ⟨hlen, hget, hwr, hbr⟩ :=
    Print_go_spec 0 str 0 (printStart s)
      (by unfold printStart; dsimp only; rw [hac]; rfl)
      (by omega)
      (by unfold printStart; dsimp only; exact htext)
  rw [Print_eq_go str s hac]
  rw [if_neg (by omega)] at hbr
  obtain ⟨hac2, hrow, hcol⟩ := hbr
  refine ⟨?_, hlen, ?_, hac2, ?_, ?_⟩
  · intro j hj
    rw [hget j hj, if_pos (by omega),
      show j - (0 + 0) = j from by omega]
  · rw [hwr]
    unfold printStart
    dsimp only
    omega
  · rw [hrow]
    rfl
  · rw [hcol]
    rfl

/-- Witness for C7_print_truncation: thirty-three character codes 66 printed
from sys0 leave the controller homed at address 0. -/
theorem C7_print_truncation_witness :
    32 < (List.replicate 33 66).length ∧
    sys0.dev.ac = 0 ∧ sys0.w.handle.Text.length = 32 ∧
    (HD44780_Print (List.replicate 33 66) sys0).dev.ac = 0 := by
  refine ⟨by decide, rfl, by decide, ?_⟩
  exact (C7_print_truncation (List.replicate 33 66) sys0
    (by decide) rfl (by decide)).2.2.2.1
